import Mathlib

/-!
# Verification of the CameraWebApi camera manager

Shallow embedding of `src/lib/Camera.ts` (class `Camera`) and
`src/lib/ICamera.ts` / `ICameraConstraints.ts`.

The host capability API (`navigator.mediaDevices`) is modelled by an
environment record `Env` that decides the outcome of every asynchronous
call: whether the API is present, whether the preliminary permission
request succeeds, what device enumeration returns, and whether a
`getUserMedia(constraints)` call succeeds.  All promise chains in the
source always settle (every rejection is caught), so each method is
embedded as a pure function from the pre-state (and the environment) to
the post-state reached once all its callbacks have settled.
-/

namespace CameraWebApi

/-- Record `IDimensions` from `ICameraConstraints.ts`:
`{ min?, ideal, max? }`. -/
structure IDimensions where
  min : Option Nat
  ideal : Nat
  max : Option Nat
  deriving DecidableEq, Repr, Inhabited

/-- A width/height specification: the constructor accepts
`IDimensions | number`. -/
inductive DimSpec where
  | dims (d : IDimensions)
  | num (n : Nat)
  deriving DecidableEq, Repr, Inhabited

/-- Record `IVideo` from `ICameraConstraints.ts`.  The
`deviceId`/`facingMode` members are `{ exact: string }` selectors in the
source; we keep just the exact string, `none` standing for `undefined`. -/
structure IVideo where
  width : Option DimSpec
  height : Option DimSpec
  deviceId : Option String
  facingMode : Option String
  deriving DecidableEq, Repr, Inhabited

/-- Record `ICameraConstraints` from `ICameraConstraints.ts`. -/
structure ICameraConstraints where
  video : IVideo
  audio : Bool
  deriving DecidableEq, Repr, Inhabited

/-- Record `ICamera` from `ICamera.ts`: a camera descriptor. -/
structure ICamera where
  deviceId : String
  label : String
  workingConstraints : Option ICameraConstraints
  deriving DecidableEq, Repr, Inhabited

/-- The relevant part of the DOM `MediaDeviceInfo` record returned by
`enumerateDevices`. -/
structure MediaDeviceInfo where
  deviceId : String
  label : String
  kind : String
  deriving DecidableEq, Repr, Inhabited

/-- The `_currDirection` field: `'Front' | 'Rear'`. -/
inductive Direction where
  | Front
  | Rear
  deriving DecidableEq, Repr, Inhabited

/-- The mutable fields of class `Camera`.  TS `number` indices are
modelled as `Int` (JS `findIndex` can return `-1`); `_currCamera`,
declared with a definite-assignment assertion and `undefined` until the
first successful stream, is an `Option`. -/
structure CameraState where
  constraints : ICameraConstraints
  isLoading : Bool
  allCameras : List ICamera
  rearCameras : List ICamera
  frontCameras : List ICamera
  currFrontIndex : Int
  currRearIndex : Int
  currDirection : Direction
  isStreaming : Bool
  currCamera : Option ICamera
  deriving DecidableEq, Repr, Inhabited

/-- The host capability API.  `gum oc` is the outcome of
`getUserMedia` called with constraints `oc` (`none` = called with
`undefined`, as happens when a descriptor has no `workingConstraints`);
`permissionGranted` is the outcome of the preliminary
`getUserMedia({audio:false, video:true})` permission prompt;
`enumerate = none` models a rejected `enumerateDevices()` promise. -/
structure Env where
  apiSupported : Bool
  permissionGranted : Bool
  enumerate : Option (List MediaDeviceInfo)
  gum : Option ICameraConstraints → Bool

/-! ## JS string / array primitives used by the source -/

/-- ASCII `toLowerCase` on one character. -/
def toLowerChar (c : Char) : Char :=
  if 65 ≤ c.toNat ∧ c.toNat ≤ 90 then Char.ofNat (c.toNat + 32) else c

/-- Does `needle` occur as a contiguous run inside the second list? -/
def hasInfixList (needle : List Char) : List Char → Bool
  | [] => needle.isPrefixOf []
  | c :: t => needle.isPrefixOf (c :: t) || hasInfixList needle t

/-- The front/rear label heuristic
`label.toLowerCase().includes('back')`. -/
def containsBack (label : String) : Bool :=
  hasInfixList "back".data (label.data.map toLowerChar)

/-- JS array subscript `l[i]`: `undefined` (here `none`) when out of
range. -/
def jsIndex (l : List α) (i : Int) : Option α :=
  if 0 ≤ i then l[i.toNat]? else none

/-- JS `Array.prototype.findIndex`: index of the first match, `-1` if
none. -/
def jsFindIndex (p : α → Bool) : List α → Int
  | [] => -1
  | a :: t =>
    if p a then 0
    else
      let r := jsFindIndex p t
      if r = -1 then -1 else r + 1

/-! ## Embedded methods of class `Camera` -/

/-- The `_constraints` field as set by the constructor (lines 17-31):
`{ video: { width, height }, audio: false }`. -/
def mkConstraints (width height : DimSpec) : ICameraConstraints :=
  { video := { width := some width, height := some height
               deviceId := none, facingMode := none }
    audio := false }

/-- Method `canToggleLenses` (lines 58-68).  The trailing `else` branch
of the source is unreachable since `_currDirection` has only two
values. -/
def canToggleLenses (s : CameraState) : Bool :=
  match s.currDirection with
  | Direction.Front => s.frontCameras.length > 1
  | Direction.Rear => s.rearCameras.length > 1

/-- Method `canSwitchCameraDirections` (lines 70-73). -/
def canSwitchCameraDirections (s : CameraState) : Bool :=
  s.rearCameras.length > 0 && s.frontCameras.length > 0

/-- Result of the device-resolution chain at the top of
`viewCameraStream` (lines 123-142).  `dev d` means the local
`cameraDevice` holds `d`; `undef` means a list subscript returned
`undefined` (the call then dies with a TypeError inside the timeout,
before any acquisition); `noneAvail` is the final
`console.error('No cameras available...')` branch, which returns before
touching the player. -/
inductive Resolution where
  | dev (d : ICamera)
  | undef
  | noneAvail
  deriving DecidableEq, Repr, Inhabited

/-- Wrap a JS subscript result as a `Resolution`. -/
def devOrUndef : Option ICamera → Resolution
  | some d => Resolution.dev d
  | none => Resolution.undef

/-- Lines 123-142 of `viewCameraStream`. -/
def resolveDevice (s : CameraState) (cameraDevice : Option ICamera) : Resolution :=
  match cameraDevice with
  | some d => Resolution.dev d
  | none =>
    match s.currCamera with
    | some c => Resolution.dev c
    | none =>
      if s.currDirection = Direction.Front ∧ s.frontCameras.length > 0 then
        devOrUndef (jsIndex s.frontCameras s.currFrontIndex)
      else if s.currDirection = Direction.Rear ∧ s.rearCameras.length > 0 then
        devOrUndef (jsIndex s.rearCameras s.currRearIndex)
      else if s.currDirection = Direction.Front ∧ s.frontCameras.length = 0 ∧
          s.rearCameras.length > 0 then
        devOrUndef (jsIndex s.rearCameras s.currRearIndex)
      else if s.currDirection = Direction.Rear ∧ s.rearCameras.length = 0 ∧
          s.frontCameras.length > 0 then
        devOrUndef (jsIndex s.frontCameras s.currFrontIndex)
      else
        Resolution.noneAvail

/-- The success callback of `getUserMedia` inside `viewCameraStream`
(lines 149-162): record `currCamera`, infer the direction from the
label, resynchronise that direction's cursor by `findIndex`, set
streaming. -/
def streamSuccess (s : CameraState) (d : ICamera) : CameraState :=
  let dir := if containsBack d.label then Direction.Rear else Direction.Front
  let s2 := { s with currCamera := some d, currDirection := dir }
  match dir with
  | Direction.Front =>
    { s2 with
      currFrontIndex := jsFindIndex (fun c => c.deviceId == d.deviceId) s2.frontCameras
      isStreaming := true }
  | Direction.Rear =>
    { s2 with
      currRearIndex := jsFindIndex (fun c => c.deviceId == d.deviceId) s2.rearCameras
      isStreaming := true }

/-- Method `viewCameraStream` (lines 122-165), run to quiescence.
`hasPlayer` is the truthiness of the `videoPlayer` argument.  Besides
the post-state we return the constraints passed to the acquisition
call, when one was issued (`some oc`: `getUserMedia` was called with
`oc`; `none`: no acquisition happened).  A rejected acquisition has no
`catch` handler, so the state after a failure is exactly the state at
the time of the call (with `_isStreaming` already cleared at line
146). -/
def viewCameraStream (env : Env) (hasPlayer : Bool) (s : CameraState)
    (cameraDevice : Option ICamera) :
    CameraState × Option (Option ICameraConstraints) :=
  match resolveDevice s cameraDevice with
  | Resolution.noneAvail => (s, none)
  | Resolution.undef =>
    if hasPlayer then ({ s with isStreaming := false }, none) else (s, none)
  | Resolution.dev d =>
    if hasPlayer then
      let s1 := { s with isStreaming := false }
      if env.gum d.workingConstraints then
        (streamSuccess s1 d, some d.workingConstraints)
      else
        (s1, some d.workingConstraints)
    else
      (s, none)

/-- Method `toggleCurrentCamera` (lines 79-97).  The device handed to
`viewCameraStream` is the JS subscript at the advanced cursor; an
out-of-range subscript passes `undefined`, i.e. no argument. -/
def toggleCurrentCamera (env : Env) (hasPlayer : Bool) (s : CameraState) :
    CameraState × Option (Option ICameraConstraints) :=
  if ¬ canToggleLenses s ∨ ¬ s.isStreaming then
    (s, none)
  else
    match s.currDirection with
    | Direction.Front =>
      let i := s.currFrontIndex + 1
      let i2 := if i ≥ (s.frontCameras.length : Int) then 0 else i
      let s2 := { s with currFrontIndex := i2 }
      viewCameraStream env hasPlayer s2 (jsIndex s2.frontCameras i2)
    | Direction.Rear =>
      let i := s.currRearIndex + 1
      let i2 := if i ≥ (s.rearCameras.length : Int) then 0 else i
      let s2 := { s with currRearIndex := i2 }
      viewCameraStream env hasPlayer s2 (jsIndex s2.rearCameras i2)

/-- Method `switchCameraDirection` (lines 103-115). -/
def switchCameraDirection (env : Env) (hasPlayer : Bool) (s : CameraState) :
    CameraState × Option (Option ICameraConstraints) :=
  if ¬ canSwitchCameraDirections s ∨ ¬ s.isStreaming then
    (s, none)
  else
    match s.currDirection with
    | Direction.Front =>
      viewCameraStream env hasPlayer s (jsIndex s.rearCameras s.currRearIndex)
    | Direction.Rear =>
      viewCameraStream env hasPlayer s (jsIndex s.frontCameras s.currFrontIndex)

/-- The success body of `checkStream` (lines 291-309): attach the
succeeding constraints as `workingConstraints` and push onto the list
picked by the label heuristic. -/
def classifyPush (s : CameraState) (d : ICamera) (c : ICameraConstraints) :
    CameraState :=
  if containsBack d.label then
    { s with rearCameras :=
        s.rearCameras ++ [{ d with workingConstraints := some c }] }
  else
    { s with frontCameras :=
        s.frontCameras ++ [{ d with workingConstraints := some c }] }

/-- The per-device constraints built in `loadCameras` (lines 211-221):
the constructor's width/height, `deviceId: { exact: d.deviceId }`,
`facingMode: undefined`. -/
def deviceConstraints (prefs : ICameraConstraints) (d : ICamera) :
    ICameraConstraints :=
  { audio := prefs.audio
    video := { width := prefs.video.width, height := prefs.video.height
               deviceId := some d.deviceId, facingMode := none } }

/-- Lines 229-230: the retry drops width and height. -/
def dropWidthHeight (c : ICameraConstraints) : ICameraConstraints :=
  { c with video := { c.video with width := none, height := none } }

/-- The probe policy of `loadCameras` for one device (lines 210-238):
first `checkStream` with the exact deviceId plus preferred width/height;
only if that fails, a second `checkStream` with width/height dropped.
Returns the list of constraint sets attempted (the `getUserMedia` calls
issued, in order) and the succeeding constraints, if any. -/
def probeDevice (env : Env) (prefs : ICameraConstraints) (d : ICamera) :
    List ICameraConstraints × Option ICameraConstraints :=
  let c1 := deviceConstraints prefs d
  if env.gum (some c1) then
    ([c1], some c1)
  else
    let c2 := dropWidthHeight c1
    if env.gum (some c2) then
      ([c1, c2], some c2)
    else
      ([c1, c2], none)

/-- The effect of one device's probe chain on the state: a success in
either attempt classifies the device; a device failing both attempts is
left out of both lists. -/
def loadDevice (env : Env) (prefs : ICameraConstraints) (s : CameraState)
    (d : ICamera) : CameraState :=
  match (probeDevice env prefs d).2 with
  | some c => classifyPush s d c
  | none => s

/-- The constraints of the facingMode fallback probes in
`checkCamerasLoaded` (lines 251-261 and 271-281). -/
def fallbackConstraints (audio : Bool) (mode : String) : ICameraConstraints :=
  { audio := audio
    video := { width := none, height := none, deviceId := none
               facingMode := some mode } }

/-- One conditional fallback probe of `checkCamerasLoaded`: issued only
when `empty` holds (the direction's list was empty when the method ran);
on success the `checkStream` callback classifies the synthetic
descriptor `d` with the fallback constraints attached. -/
def fallbackProbe (env : Env) (s : CameraState) (empty : Bool)
    (d : ICamera) (c : ICameraConstraints) : CameraState :=
  if empty then
    if env.gum (some c) then classifyPush s d c else s
  else s

/-- Method `checkCamerasLoaded` (lines 242-289), run until every
fallback probe it issues has settled.  The two local flags
`checkedUserFacing` / `checkedEnvironmentFacing` start false; the
`'user'` probe's callback sets the first, the `'environment'` probe's
callback sets the second, and a callback clears `_isLoading` only when
it observes both flags true.  A probe is issued only for a direction
whose list is empty at the synchronous run of the method (the callbacks
and their pushes settle later), so after quiescence `_isLoading` has
been cleared by a callback exactly when both probes were issued.
(`checkStream` always settles: its rejection handler returns `false`.)
The settle order of the two probes does not affect the final state; we
settle the `'user'` probe first. -/
def checkCamerasLoaded (env : Env) (s : CameraState) : CameraState :=
  if s.allCameras.length > 0 ∧ s.frontCameras.length > 0 ∧
      s.rearCameras.length > 0 then
    { s with isLoading := false }
  else
    let s1 := fallbackProbe env s (s.frontCameras.length == 0)
      { deviceId := "user", label := "Front Cam", workingConstraints := none }
      (fallbackConstraints s.constraints.audio "user")
    let s2 := fallbackProbe env s1 (s.rearCameras.length == 0)
      { deviceId := "environment", label := "Back Cam"
        workingConstraints := none }
      (fallbackConstraints s.constraints.audio "environment")
    if s.frontCameras.length = 0 ∧ s.rearCameras.length = 0 then
      { s2 with isLoading := false }
    else s2

/-- Method `loadCameras` (lines 208-240) followed by the completion
check: the `loaded` counter reaches `_allCameras.length` (and so
triggers `checkCamerasLoaded`) exactly once, after every device's probe
chain has settled — and never when the device list is empty.  The
`forEach` issues the per-device probe chains concurrently and the
front/rear pushes happen in promise-settlement order, which the host
does not guarantee; each device pushes at most once and its probe
outcome depends only on its own constraints, so the settlement order
only permutes the two lists.  This definition settles the chains in
discovery order as one representative schedule; conclusions about the
list order are therefore established for every settlement order
separately (see `probedState`), and nothing else observable depends on
the schedule. -/
def loadCameras (env : Env) (s : CameraState) : CameraState :=
  let s2 := s.allCameras.foldl (loadDevice env s.constraints) s
  if s.allCameras.length > 0 then checkCamerasLoaded env s2 else s2

/-- Outcome of the construction / `getCamerasAndPermissions` flow.  The
first three constructors are the terminal `console.error` paths of lines
167-206 (no loading happens after them); `loaded s` means the flow
proceeded into `loadCameras` and `s` is the state after every probe
settled. -/
inductive InitOutcome where
  | unsupportedPlatform
  | permissionDenied
  | enumerationError
  | loaded (s : CameraState)
  deriving DecidableEq, Repr, Inhabited

/-- Did initialization stop on one of its terminal error paths? -/
def isInitFailure : InitOutcome → Bool
  | InitOutcome.unsupportedPlatform => true
  | InitOutcome.permissionDenied => true
  | InitOutcome.enumerationError => true
  | InitOutcome.loaded _ => false

/-- The fresh state built by the constructor before discovery runs. -/
def initialState (width height : DimSpec) : CameraState :=
  { constraints := mkConstraints width height
    isLoading := true
    allCameras := []
    rearCameras := []
    frontCameras := []
    currFrontIndex := 0
    currRearIndex := 0
    currDirection := Direction.Rear
    isStreaming := false
    currCamera := none }

/-- Method `getCamerasAndPermissions` (lines 167-206) plus `getCameras`
(lines 194-206): API support check, permission prompt, enumeration
filtered to `'videoinput'`, then `loadCameras`. -/
def getCamerasAndPermissions (env : Env) (width height : DimSpec) :
    InitOutcome :=
  if ¬ env.apiSupported then
    InitOutcome.unsupportedPlatform
  else if ¬ env.permissionGranted then
    InitOutcome.permissionDenied
  else
    match env.enumerate with
    | none => InitOutcome.enumerationError
    | some devices =>
      let cams := (devices.filter (fun d => d.kind == "videoinput")).map
        (fun c => { deviceId := c.deviceId, label := c.label
                    workingConstraints := none : ICamera })
      let s0 := { initialState width height with allCameras := cams }
      InitOutcome.loaded (loadCameras env s0)

/-! ## Derived characterizations of the device-probing phase -/

/-- The front list produced by the device-probing loop: the devices
whose label lacks `'back'` and that passed a probe, with the succeeding
constraints attached, in discovery order. -/
def attachFront (env : Env) (prefs : ICameraConstraints)
    (cams : List ICamera) : List ICamera :=
  cams.filterMap (fun d =>
    match (probeDevice env prefs d).2 with
    | some c =>
      if containsBack d.label then none
      else some { d with workingConstraints := some c }
    | none => none)

/-- The rear list produced by the device-probing loop: the
`'back'`-labelled devices that passed a probe, constraints attached. -/
def attachRear (env : Env) (prefs : ICameraConstraints)
    (cams : List ICamera) : List ICamera :=
  cams.filterMap (fun d =>
    match (probeDevice env prefs d).2 with
    | some c =>
      if containsBack d.label then
        some { d with workingConstraints := some c }
      else none
    | none => none)

/-- The manager state right after the per-device probe chains of
`loadCameras` have settled (before the facingMode fallback check),
starting from a fresh post-enumeration state whose `allCameras` is
`cams`.  The chains are issued concurrently, so the host decides the
order `order` in which the per-device pushes settle — any permutation
of the discovery order `cams`; each device pushes at most once and its
probe outcome is a function of its own constraints alone, so `order`
fully determines the outcome of the phase. -/
def probedState (env : Env) (w h : DimSpec) (cams order : List ICamera) :
    CameraState :=
  order.foldl (loadDevice env (mkConstraints w h))
    { initialState w h with allCameras := cams }

/-! ## Concrete instances used when checking the claims -/

/-- The preferred width handed to the constructor in the examples. -/
def prefW : DimSpec := DimSpec.num 640

/-- The preferred height handed to the constructor in the examples. -/
def prefH : DimSpec := DimSpec.num 480

/-- An environment with one front and one rear device where every
`getUserMedia` call succeeds. -/
def envTwoDevices : Env :=
  { apiSupported := true
    permissionGranted := true
    enumerate := some [
      { deviceId := "f1", label := "Front Camera", kind := "videoinput" },
      { deviceId := "b1", label := "Back Camera", kind := "videoinput" }]
    gum := fun _ => true }

/-- The same devices, but every `getUserMedia` call now fails. -/
def envAllFail : Env := { envTwoDevices with gum := fun _ => false }

/-- The manager state after construction under `envTwoDevices`. -/
def sTwoLoaded : CameraState :=
  match getCamerasAndPermissions envTwoDevices prefW prefH with
  | InitOutcome.loaded s => s
  | _ => default

/-- State `sTwoLoaded` after one successful argumentless
`viewCameraStream`: a streaming state. -/
def sStreamingRear : CameraState :=
  (viewCameraStream envTwoDevices true sTwoLoaded none).1

/-- The descriptor `sStreamingRear` is currently streaming from. -/
def devB1 : ICamera := sStreamingRear.currCamera.getD default

/-- An environment with a single front-labelled device where every
`getUserMedia` call (device probes and facingMode fallbacks) succeeds. -/
def envOneFrontAll : Env :=
  { apiSupported := true
    permissionGranted := true
    enumerate := some [
      { deviceId := "f1", label := "Front Camera", kind := "videoinput" }]
    gum := fun _ => true }

/-- The same single front-labelled device, but the facingMode fallback
probes (the only `getUserMedia` calls carrying a `facingMode`) fail. -/
def envOneFrontNoFb : Env :=
  { envOneFrontAll with
    gum := fun oc =>
      match oc with
      | some c => c.video.facingMode == none
      | none => false }

/-- The manager state after construction under `envOneFrontAll`. -/
def sOneFrontAll : CameraState :=
  match getCamerasAndPermissions envOneFrontAll prefW prefH with
  | InitOutcome.loaded s => s
  | _ => default

/-- The manager state after construction under `envOneFrontNoFb`. -/
def sOneFrontNoFb : CameraState :=
  match getCamerasAndPermissions envOneFrontNoFb prefW prefH with
  | InitOutcome.loaded s => s
  | _ => default

/-- An environment that grants permission and enumerates zero devices. -/
def envZeroDevices : Env :=
  { apiSupported := true
    permissionGranted := true
    enumerate := some []
    gum := fun _ => true }

/-- The manager state after construction under `envZeroDevices`. -/
def sZeroDevices : CameraState :=
  match getCamerasAndPermissions envZeroDevices prefW prefH with
  | InitOutcome.loaded s => s
  | _ => default

/-- An environment with one rear-labelled device; device probes (no
`facingMode`) succeed, the facingMode fallback probes fail, so the front
list ends up empty. -/
def envOneRear : Env :=
  { apiSupported := true
    permissionGranted := true
    enumerate := some [
      { deviceId := "r1", label := "Back Camera", kind := "videoinput" }]
    gum := fun oc =>
      match oc with
      | some c => c.video.facingMode == none
      | none => false }

/-- The manager state after construction under `envOneRear`:
`frontCameras` empty, `rearCameras` a singleton, `currCamera` unset. -/
def sOneRear : CameraState :=
  match getCamerasAndPermissions envOneRear prefW prefH with
  | InitOutcome.loaded s => s
  | _ => default

/-- A caller-fabricated descriptor that appears in none of the
manager's lists; its label lacks `'back'` and its constraints carry no
`facingMode`, so acquisition under `envOneRear` succeeds. -/
def fabricatedDevice : ICamera :=
  { deviceId := "fake", label := "My Webcam"
    workingConstraints := some (mkConstraints prefW prefH) }

/-- An environment with one device whose probe at the preferred
resolution fails and whose retry without a resolution succeeds. -/
def envRetry : Env :=
  { apiSupported := true
    permissionGranted := true
    enumerate := some [
      { deviceId := "x1", label := "Cam X", kind := "videoinput" }]
    gum := fun oc =>
      match oc with
      | some c => c.video.width == none
      | none => false }

/-- The enumerated descriptor of `envRetry`'s single device. -/
def devX : ICamera :=
  { deviceId := "x1", label := "Cam X", workingConstraints := none }

/-- An environment with three devices: a front one and a rear one whose
probes succeed, and a third (`camX`) whose probes both fail. -/
def envThreeDevices : Env :=
  { apiSupported := true
    permissionGranted := true
    enumerate := some [
      { deviceId := "cam1", label := "Front Camera", kind := "videoinput" },
      { deviceId := "cam2", label := "Back Camera", kind := "videoinput" },
      { deviceId := "camX", label := "Other Camera", kind := "videoinput" }]
    gum := fun oc =>
      match oc with
      | some c => c.video.deviceId != some "camX"
      | none => false }

/-- The manager state after construction under `envThreeDevices`. -/
def sThreeDevices : CameraState :=
  match getCamerasAndPermissions envThreeDevices prefW prefH with
  | InitOutcome.loaded s => s
  | _ => default

/-- The enumerated descriptors of `envThreeDevices`, as `ICamera`s. -/
def camsThree : List ICamera :=
  [{ deviceId := "cam1", label := "Front Camera", workingConstraints := none },
   { deviceId := "cam2", label := "Back Camera", workingConstraints := none },
   { deviceId := "camX", label := "Other Camera", workingConstraints := none }]

/-- A settlement order for `camsThree` different from the discovery
order: the probe chains settle last-to-first. -/
def camsThreeRev : List ICamera :=
  [{ deviceId := "camX", label := "Other Camera", workingConstraints := none },
   { deviceId := "cam2", label := "Back Camera", workingConstraints := none },
   { deviceId := "cam1", label := "Front Camera", workingConstraints := none }]

/-- A fabricated streaming state used to witness the toggle claim: two
front cameras, front direction, cursor on the last entry. -/
def sToggleW : CameraState :=
  { constraints := mkConstraints prefW prefH
    isLoading := false
    allCameras := []
    rearCameras := []
    frontCameras := [
      { deviceId := "fa", label := "Front A", workingConstraints := none },
      { deviceId := "fb", label := "Front B", workingConstraints := none }]
    currFrontIndex := 1
    currRearIndex := 0
    currDirection := Direction.Front
    isStreaming := true
    currCamera := none }

/-! ## Helper lemmas -/

theorem jsFindIndex_bounds {p : α → Bool} {l : List α} (h : ∃ x ∈ l, p x = true) :
    0 ≤ jsFindIndex p l ∧ jsFindIndex p l < (l.length : Int) := by
  induction l with
  | nil => simp at h
  | cons a t ih =>
    by_cases ha : p a = true
    · simp [jsFindIndex, ha]
    · obtain ⟨x, hx, hpx⟩ := h
      have hxt : x ∈ t := by
        cases List.mem_cons.mp hx with
        | inl he => exact absurd (he ▸ hpx) ha
        | inr ht => exact ht
      have hr := ih ⟨x, hxt, hpx⟩
      have hne : jsFindIndex p t ≠ -1 := by omega
      simp only [jsFindIndex, ha, if_false, List.length_cons]
      rw [if_neg hne]
      omega

theorem jsIndex_mem {l : List α} {i : Int} {d : α} (h : jsIndex l i = some d) :
    d ∈ l := by
  unfold jsIndex at h
  split at h
  · exact List.getElem?_mem h
  · cases h

theorem viewCameraStream_fail_eq {env : Env} {s : CameraState}
    {cameraDevice : Option ICamera} {d : ICamera}
    (hres : resolveDevice s cameraDevice = Resolution.dev d)
    (hfail : env.gum d.workingConstraints = false) :
    viewCameraStream env true s cameraDevice =
      ({ s with isStreaming := false }, some d.workingConstraints) := by
  unfold viewCameraStream
  rw [hres]
  simp [hfail]

theorem viewCameraStream_succ_eq {env : Env} {s : CameraState}
    {cameraDevice : Option ICamera} {d : ICamera}
    (hres : resolveDevice s cameraDevice = Resolution.dev d)
    (hsucc : env.gum d.workingConstraints = true) :
    viewCameraStream env true s cameraDevice =
      (streamSuccess { s with isStreaming := false } d,
        some d.workingConstraints) := by
  unfold viewCameraStream
  rw [hres]
  simp [hsucc]

theorem streamSuccess_front_eq {s : CameraState} {d : ICamera}
    (hb : containsBack d.label = false) :
    streamSuccess s d =
      { s with
        currCamera := some d
        currDirection := Direction.Front
        currFrontIndex :=
          jsFindIndex (fun c => c.deviceId == d.deviceId) s.frontCameras
        isStreaming := true } := by
  simp only [streamSuccess, hb, Bool.false_eq_true, if_false]

theorem streamSuccess_rear_eq {s : CameraState} {d : ICamera}
    (hb : containsBack d.label = true) :
    streamSuccess s d =
      { s with
        currCamera := some d
        currDirection := Direction.Rear
        currRearIndex :=
          jsFindIndex (fun c => c.deviceId == d.deviceId) s.rearCameras
        isStreaming := true } := by
  simp only [streamSuccess, hb, if_true]

/-- A `loadCameras` run over an empty device list does nothing: no
probe settles, so the completion check never runs. -/
theorem loadCameras_no_devices {env : Env} {s : CameraState}
    (h : s.allCameras = []) : loadCameras env s = s := by
  unfold loadCameras
  rw [h]
  simp

/-- The probe chain of a device is a function of its `deviceId` alone. -/
theorem probeDevice_deviceId_eq {env : Env} {prefs : ICameraConstraints}
    {a b : ICamera} (h : a.deviceId = b.deviceId) :
    probeDevice env prefs a = probeDevice env prefs b := by
  unfold probeDevice deviceConstraints dropWidthHeight
  rw [h]

/-- Characterization of membership in `attachFront`. -/
theorem mem_attachFront {env : Env} {prefs : ICameraConstraints}
    {cams : List ICamera} {x : ICamera} :
    x ∈ attachFront env prefs cams ↔
      ∃ d ∈ cams, ∃ c, (probeDevice env prefs d).2 = some c ∧
        containsBack d.label = false ∧
        x = { d with workingConstraints := some c } := by
  unfold attachFront
  rw [List.mem_filterMap]
  constructor
  · rintro ⟨a, ha, hfa⟩
    rcases hp : (probeDevice env prefs a).2 with _ | c
    · rw [hp] at hfa
      simp at hfa
    · rw [hp] at hfa
      cases hb : containsBack a.label
      · rw [hb] at hfa
        simp at hfa
        exact ⟨a, ha, c, hp, hb, hfa.symm⟩
      · rw [hb] at hfa
        simp at hfa
  · rintro ⟨d, hd, c, hp, hb, rfl⟩
    refine ⟨d, hd, ?_⟩
    rw [hp, hb]
    simp

/-- Characterization of membership in `attachRear`. -/
theorem mem_attachRear {env : Env} {prefs : ICameraConstraints}
    {cams : List ICamera} {x : ICamera} :
    x ∈ attachRear env prefs cams ↔
      ∃ d ∈ cams, ∃ c, (probeDevice env prefs d).2 = some c ∧
        containsBack d.label = true ∧
        x = { d with workingConstraints := some c } := by
  unfold attachRear
  rw [List.mem_filterMap]
  constructor
  · rintro ⟨a, ha, hfa⟩
    rcases hp : (probeDevice env prefs a).2 with _ | c
    · rw [hp] at hfa
      simp at hfa
    · rw [hp] at hfa
      cases hb : containsBack a.label
      · rw [hb] at hfa
        simp at hfa
      · rw [hb] at hfa
        simp at hfa
        exact ⟨a, ha, c, hp, hb, hfa.symm⟩
  · rintro ⟨d, hd, c, hp, hb, rfl⟩
    refine ⟨d, hd, ?_⟩
    rw [hp, hb]
    simp

/-- The device-probing fold appends exactly `attachFront`/`attachRear`
to the two lists and changes nothing else. -/
theorem loadDevice_foldl (env : Env) (prefs : ICameraConstraints) :
    ∀ (cams : List ICamera) (s : CameraState),
      cams.foldl (loadDevice env prefs) s =
        { s with
          frontCameras := s.frontCameras ++ attachFront env prefs cams
          rearCameras := s.rearCameras ++ attachRear env prefs cams } := by
  intro cams
  induction cams with
  | nil =>
    intro s
    simp [attachFront, attachRear]
  | cons d t ih =>
    intro s
    rw [List.foldl_cons, ih]
    unfold loadDevice classifyPush
    rcases hp : (probeDevice env prefs d).2 with _ | c
    · simp [attachFront, attachRear, List.filterMap_cons, hp]
    · cases hb : containsBack d.label <;>
        simp [attachFront, attachRear, List.filterMap_cons, hp, hb]

/-- `classifyPush` preserves the label-heuristic shape of both lists. -/
theorem classifyPush_heuristic {s : CameraState} {d : ICamera}
    {c : ICameraConstraints}
    (hf : ∀ x ∈ s.frontCameras, containsBack x.label = false)
    (hr : ∀ x ∈ s.rearCameras, containsBack x.label = true) :
    (∀ x ∈ (classifyPush s d c).frontCameras, containsBack x.label = false) ∧
    (∀ x ∈ (classifyPush s d c).rearCameras, containsBack x.label = true) := by
  unfold classifyPush
  cases hb : containsBack d.label
  · simp only [Bool.false_eq_true, if_false]
    refine ⟨?_, hr⟩
    intro x hx
    rcases List.mem_append.mp hx with hx1 | hx2
    · exact hf x hx1
    · rw [List.mem_singleton.mp hx2]
      exact hb
  · rw [if_pos rfl]
    refine ⟨hf, ?_⟩
    intro x hx
    rcases List.mem_append.mp hx with hx1 | hx2
    · exact hr x hx1
    · rw [List.mem_singleton.mp hx2]
      exact hb

/-- `fallbackProbe` preserves the label-heuristic shape of both lists. -/
theorem fallbackProbe_heuristic (env : Env) {s : CameraState} (b : Bool)
    (d : ICamera) (c : ICameraConstraints)
    (hf : ∀ x ∈ s.frontCameras, containsBack x.label = false)
    (hr : ∀ x ∈ s.rearCameras, containsBack x.label = true) :
    (∀ x ∈ (fallbackProbe env s b d c).frontCameras,
      containsBack x.label = false) ∧
    (∀ x ∈ (fallbackProbe env s b d c).rearCameras,
      containsBack x.label = true) := by
  unfold fallbackProbe
  split
  · split
    · exact classifyPush_heuristic hf hr
    · exact ⟨hf, hr⟩
  · exact ⟨hf, hr⟩

/-- `checkCamerasLoaded` preserves the label-heuristic shape of both
lists. -/
theorem checkCamerasLoaded_heuristic {env : Env} {s : CameraState}
    (hf : ∀ x ∈ s.frontCameras, containsBack x.label = false)
    (hr : ∀ x ∈ s.rearCameras, containsBack x.label = true) :
    (∀ x ∈ (checkCamerasLoaded env s).frontCameras,
      containsBack x.label = false) ∧
    (∀ x ∈ (checkCamerasLoaded env s).rearCameras,
      containsBack x.label = true) := by
  unfold checkCamerasLoaded
  split
  · exact ⟨hf, hr⟩
  · have h1 := fallbackProbe_heuristic env
      (s.frontCameras.length == 0)
      { deviceId := "user", label := "Front Cam"
        workingConstraints := none }
      (fallbackConstraints s.constraints.audio "user") hf hr
    have h2 := fallbackProbe_heuristic env
      (s.rearCameras.length == 0)
      { deviceId := "environment", label := "Back Cam"
        workingConstraints := none }
      (fallbackConstraints s.constraints.audio "environment") h1.1 h1.2
    split
    · exact h2
    · exact h2

/-- `loadCameras` preserves the label-heuristic shape of both lists. -/
theorem loadCameras_heuristic {env : Env} {s : CameraState}
    (hf : ∀ x ∈ s.frontCameras, containsBack x.label = false)
    (hr : ∀ x ∈ s.rearCameras, containsBack x.label = true) :
    (∀ x ∈ (loadCameras env s).frontCameras,
      containsBack x.label = false) ∧
    (∀ x ∈ (loadCameras env s).rearCameras,
      containsBack x.label = true) := by
  unfold loadCameras
  rw [loadDevice_foldl]
  have hf2 : ∀ x ∈ s.frontCameras ++ attachFront env s.constraints s.allCameras,
      containsBack x.label = false := by
    intro x hx
    rcases List.mem_append.mp hx with hx1 | hx2
    · exact hf x hx1
    · obtain ⟨d, _, c, _, hb, rfl⟩ := mem_attachFront.mp hx2
      exact hb
  have hr2 : ∀ x ∈ s.rearCameras ++ attachRear env s.constraints s.allCameras,
      containsBack x.label = true := by
    intro x hx
    rcases List.mem_append.mp hx with hx1 | hx2
    · exact hr x hx1
    · obtain ⟨d, _, c, _, hb, rfl⟩ := mem_attachRear.mp hx2
      exact hb
  split
  · exact checkCamerasLoaded_heuristic hf2 hr2
  · exact ⟨hf2, hr2⟩

/-- Every state reached through `getCamerasAndPermissions` has
heuristic-shaped lists. -/
theorem getCamerasAndPermissions_heuristic {env : Env} {w h : DimSpec}
    {s : CameraState}
    (hl : getCamerasAndPermissions env w h = InitOutcome.loaded s) :
    (∀ x ∈ s.frontCameras, containsBack x.label = false) ∧
    (∀ x ∈ s.rearCameras, containsBack x.label = true) := by
  unfold getCamerasAndPermissions at hl
  split at hl
  · cases hl
  · split at hl
    · cases hl
    · split at hl
      · cases hl
      · rw [InitOutcome.loaded.injEq] at hl
        subst hl
        exact loadCameras_heuristic
          (by intro x hx; cases hx) (by intro x hx; cases hx)

end CameraWebApi

namespace CameraWebApi

/-! ## Claims -/

/-- C1: the claim that loading terminates for every outcome of the
fallback facingMode probes is violated by the code.  With one
front-classified device and an empty rear list, only the
`'environment'` fallback probe is issued, so `checkedUserFacing` is
never set and no callback ever clears `_isLoading`: whether the
fallback probe succeeds (`envOneFrontAll` — the rear list even becomes
non-empty) or fails (`envOneFrontNoFb`), `isLoading` stays `true`
forever. -/
theorem c1_single_fallback_never_ends_loading :
    getCamerasAndPermissions envOneFrontAll prefW prefH =
      InitOutcome.loaded sOneFrontAll ∧
    sOneFrontAll.isLoading = true ∧
    sOneFrontAll.frontCameras.length = 1 ∧
    sOneFrontAll.rearCameras.length = 1 ∧
    getCamerasAndPermissions envOneFrontNoFb prefW prefH =
      InitOutcome.loaded sOneFrontNoFb ∧
    sOneFrontNoFb.isLoading = true ∧
    sOneFrontNoFb.frontCameras.length = 1 ∧
    sOneFrontNoFb.rearCameras = [] := by
  decide

/-- C2, counterexample: zero enumerated video-input devices is not an
initialization failure in the code — the flow proceeds into
`loadCameras`, which probes nothing, and `isLoading` simply stays
`true` forever; no failure is surfaced. -/
theorem c2_zero_devices_not_a_failure :
    isInitFailure (getCamerasAndPermissions envZeroDevices prefW prefH)
      = false ∧
    getCamerasAndPermissions envZeroDevices prefW prefH =
      InitOutcome.loaded sZeroDevices ∧
    sZeroDevices.isLoading = true := by
  decide

/-- C2, amended: initialization stops on a terminal error path in
exactly three cases — the capability API is absent, the permission
prompt is denied, or device enumeration fails; the error paths never
depend on the per-device probe outcomes (`gum`).  Zero video-input
devices is not an error: the outcome is a loaded state whose
`isLoading` is still `true` and whose lists are empty. -/
theorem c2_init_failure_characterization :
    ∀ (env : Env) (w h : DimSpec),
      (isInitFailure (getCamerasAndPermissions env w h) = true ↔
        (env.apiSupported = false ∨ env.permissionGranted = false ∨
          env.enumerate = none)) ∧
      (∀ g, isInitFailure
          (getCamerasAndPermissions { env with gum := g } w h) =
        isInitFailure (getCamerasAndPermissions env w h)) ∧
      (∀ devices, env.apiSupported = true → env.permissionGranted = true →
        env.enumerate = some devices →
        devices.filter (fun d => d.kind == "videoinput") = [] →
        ∃ s, getCamerasAndPermissions env w h = InitOutcome.loaded s ∧
          s.isLoading = true ∧ s.frontCameras = [] ∧ s.rearCameras = []) := by
  intro env w h
  refine ⟨?_, ?_, ?_⟩
  · cases hapi : env.apiSupported <;>
      cases hperm : env.permissionGranted <;>
      rcases henum : env.enumerate with _ | devices <;>
      simp [getCamerasAndPermissions, isInitFailure, hapi, hperm, henum]
  · intro g
    cases hapi : env.apiSupported <;>
      cases hperm : env.permissionGranted <;>
      rcases henum : env.enumerate with _ | devices <;>
      simp [getCamerasAndPermissions, isInitFailure, hapi, hperm, henum]
  · intro devices hapi hperm henum hfilter
    refine ⟨{ initialState w h with allCameras := [] }, ?_, rfl, rfl, rfl⟩
    simp only [getCamerasAndPermissions, hapi, hperm, henum, hfilter]
    rw [loadCameras_no_devices rfl]
    simp

/-- Witness for C2 (amended), discharging its hypotheses at
`envZeroDevices`. -/
theorem c2_init_failure_characterization_witness :
    ∃ s, getCamerasAndPermissions envZeroDevices prefW prefH =
        InitOutcome.loaded s ∧
      s.isLoading = true ∧ s.frontCameras = [] ∧ s.rearCameras = [] :=
  (c2_init_failure_characterization envZeroDevices prefW prefH).2.2 []
    (by decide) (by decide) (by decide) (by decide)

/-- C3, counterexample: the claim "on failure the entire manager state
equals the state immediately before the call" is false.  In the
reachable streaming state `sStreamingRear` (`isStreaming = true`), a
`viewCameraStream` whose acquisition fails leaves
`isStreaming = false`, so the post-state differs from the pre-state. -/
theorem c3_failed_acquisition_mutates_state :
    getCamerasAndPermissions envTwoDevices prefW prefH =
      InitOutcome.loaded sTwoLoaded ∧
    sStreamingRear.isStreaming = true ∧
    (viewCameraStream envAllFail true sStreamingRear none).2.isSome = true ∧
    (viewCameraStream envAllFail true sStreamingRear none).1.isStreaming
      = false ∧
    (viewCameraStream envAllFail true sStreamingRear none).1
      ≠ sStreamingRear := by
  decide

/-- C3, amended: when the acquisition issued by `viewCameraStream`
fails, the post-state is the pre-state with `isStreaming` cleared —
every other field (`currCamera`, `currDirection`, both cursors, all
lists) is unchanged, and the acquisition used the resolved device's
`workingConstraints`. -/
theorem c3_failure_changes_only_isStreaming :
    ∀ (env : Env) (s : CameraState) (cameraDevice : Option ICamera)
      (d : ICamera),
      resolveDevice s cameraDevice = Resolution.dev d →
      env.gum d.workingConstraints = false →
      viewCameraStream env true s cameraDevice =
        ({ s with isStreaming := false }, some d.workingConstraints) :=
  fun _ _ _ _ hres hfail => viewCameraStream_fail_eq hres hfail

/-- Witness for C3 (amended) at a concrete reachable streaming state. -/
theorem c3_failure_changes_only_isStreaming_witness :
    viewCameraStream envAllFail true sStreamingRear none =
      ({ sStreamingRear with isStreaming := false },
        some devB1.workingConstraints) :=
  c3_failure_changes_only_isStreaming envAllFail sStreamingRear none devB1
    (by decide) (by decide)

/-- C4: if the stream acquisition issued by `viewCameraStream` fails,
afterwards `isStreaming` is false and `currFrontIndex` and
`currRearIndex` keep their values from before the call. -/
theorem c4_failed_acquisition_keeps_cursors :
    ∀ (env : Env) (s : CameraState) (cameraDevice : Option ICamera)
      (d : ICamera),
      resolveDevice s cameraDevice = Resolution.dev d →
      env.gum d.workingConstraints = false →
      (viewCameraStream env true s cameraDevice).1.isStreaming = false ∧
      (viewCameraStream env true s cameraDevice).1.currFrontIndex
        = s.currFrontIndex ∧
      (viewCameraStream env true s cameraDevice).1.currRearIndex
        = s.currRearIndex := by
  intro env s cameraDevice d hres hfail
  rw [viewCameraStream_fail_eq hres hfail]
  exact ⟨rfl, rfl, rfl⟩

/-- Witness for C4 at a concrete reachable streaming state. -/
theorem c4_failed_acquisition_keeps_cursors_witness :
    (viewCameraStream envAllFail true sStreamingRear none).1.isStreaming
      = false ∧
    (viewCameraStream envAllFail true sStreamingRear none).1.currFrontIndex
      = sStreamingRear.currFrontIndex ∧
    (viewCameraStream envAllFail true sStreamingRear none).1.currRearIndex
      = sStreamingRear.currRearIndex :=
  c4_failed_acquisition_keeps_cursors envAllFail sStreamingRear none devB1
    (by decide) (by decide)

/-- C5, counterexample: the cursor-validity invariant is not preserved
by `viewCameraStream` with an arbitrary caller-supplied device.  From
the reachable state `sOneRear` (front list empty, `currCamera` unset),
streaming the fabricated front-labelled device succeeds and sets
`currFrontIndex` to `findIndex`'s `-1` with `frontCameras` still empty,
while `isStreaming` becomes true and the direction becomes `Front`. -/
theorem c5_arbitrary_device_invalid_cursor :
    getCamerasAndPermissions envOneRear prefW prefH =
      InitOutcome.loaded sOneRear ∧
    sOneRear.frontCameras = [] ∧
    sOneRear.currCamera = none ∧
    (viewCameraStream envOneRear true sOneRear
      (some fabricatedDevice)).1.isStreaming = true ∧
    (viewCameraStream envOneRear true sOneRear
      (some fabricatedDevice)).1.currDirection = Direction.Front ∧
    (viewCameraStream envOneRear true sOneRear
      (some fabricatedDevice)).1.currFrontIndex = -1 ∧
    (viewCameraStream envOneRear true sOneRear
      (some fabricatedDevice)).1.frontCameras = [] := by
  decide

/-- C5, amended: the invariant holds for devices drawn from the
manager's own lists.  If the device successfully streamed by
`viewCameraStream` occurs (by `deviceId`) in the list matching its
label's direction, then afterwards that direction's cursor is a valid
index into that (unchanged, non-empty) list; an arbitrary device not in
the matching list can instead drive the cursor to `-1`. -/
theorem c5_member_device_valid_cursor :
    ∀ (env : Env) (s : CameraState) (d : ICamera),
      env.gum d.workingConstraints = true →
      (containsBack d.label = false →
        (∃ x ∈ s.frontCameras, x.deviceId = d.deviceId) →
        (viewCameraStream env true s (some d)).1.frontCameras
          = s.frontCameras ∧
        (viewCameraStream env true s (some d)).1.frontCameras ≠ [] ∧
        0 ≤ (viewCameraStream env true s (some d)).1.currFrontIndex ∧
        (viewCameraStream env true s (some d)).1.currFrontIndex
          < (s.frontCameras.length : Int) ∧
        (viewCameraStream env true s (some d)).1.isStreaming = true) ∧
      (containsBack d.label = true →
        (∃ x ∈ s.rearCameras, x.deviceId = d.deviceId) →
        (viewCameraStream env true s (some d)).1.rearCameras
          = s.rearCameras ∧
        (viewCameraStream env true s (some d)).1.rearCameras ≠ [] ∧
        0 ≤ (viewCameraStream env true s (some d)).1.currRearIndex ∧
        (viewCameraStream env true s (some d)).1.currRearIndex
          < (s.rearCameras.length : Int) ∧
        (viewCameraStream env true s (some d)).1.isStreaming = true) := by
  intro env s d hgum
  have hres : resolveDevice s (some d) = Resolution.dev d := rfl
  rw [viewCameraStream_succ_eq hres hgum]
  constructor
  · intro hb hex
    obtain ⟨x, hxm, hxid⟩ := hex
    have hfind := jsFindIndex_bounds
      (p := fun c => c.deviceId == d.deviceId) (l := s.frontCameras)
      ⟨x, hxm, by simp [hxid]⟩
    have hne : s.frontCameras ≠ [] := by
      intro hnil
      rw [hnil] at hxm
      cases hxm
    rw [streamSuccess_front_eq hb]
    exact ⟨rfl, hne, hfind.1, hfind.2, rfl⟩
  · intro hb hex
    obtain ⟨x, hxm, hxid⟩ := hex
    have hfind := jsFindIndex_bounds
      (p := fun c => c.deviceId == d.deviceId) (l := s.rearCameras)
      ⟨x, hxm, by simp [hxid]⟩
    have hne : s.rearCameras ≠ [] := by
      intro hnil
      rw [hnil] at hxm
      cases hxm
    rw [streamSuccess_rear_eq hb]
    exact ⟨rfl, hne, hfind.1, hfind.2, rfl⟩

/-- Witness for C5 (amended): streaming `devB1`, a member of the rear
list of `sStreamingRear`, keeps the rear cursor valid. -/
theorem c5_member_device_valid_cursor_witness :
    (viewCameraStream envTwoDevices true sStreamingRear (some devB1)).1.rearCameras
      = sStreamingRear.rearCameras ∧
    (viewCameraStream envTwoDevices true sStreamingRear (some devB1)).1.rearCameras
      ≠ [] ∧
    0 ≤ (viewCameraStream envTwoDevices true sStreamingRear (some devB1)).1.currRearIndex ∧
    (viewCameraStream envTwoDevices true sStreamingRear (some devB1)).1.currRearIndex
      < (sStreamingRear.rearCameras.length : Int) ∧
    (viewCameraStream envTwoDevices true sStreamingRear (some devB1)).1.isStreaming
      = true :=
  (c5_member_device_valid_cursor envTwoDevices sStreamingRear devB1
    (by decide)).2 (by decide) (by decide)

/-- C6, counterexample: once loading completes successfully a
discovered descriptor can be absent from both lists.  Under
`envThreeDevices`, `camX` fails both probes: loading completes
(`isLoading = false`) with `camX` present in `allCameras` but dropped
from `frontCameras` and `rearCameras`. -/
theorem c6_probe_failed_device_dropped :
    getCamerasAndPermissions envThreeDevices prefW prefH =
      InitOutcome.loaded sThreeDevices ∧
    sThreeDevices.isLoading = false ∧
    sThreeDevices.allCameras.map ICamera.deviceId
      = ["cam1", "cam2", "camX"] ∧
    sThreeDevices.frontCameras.map ICamera.deviceId = ["cam1"] ∧
    sThreeDevices.rearCameras.map ICamera.deviceId = ["cam2"] := by
  decide

/-- C6, amended: after the device-probing phase — whatever order the
host settles the concurrently issued probe chains in — `frontCameras`
holds, up to that settlement permutation, exactly the discovered
devices that passed a probe and whose label lacks `'back'` (succeeding
constraints attached), and `rearCameras` exactly the `'back'`-labelled
passers; a passer lands in exactly the list picked by the label
heuristic, a device that failed both probes is dropped from both
lists, and every list member of any successfully constructed state
respects the heuristic. -/
theorem c6_lists_follow_label_heuristic :
    ∀ (env : Env) (w h : DimSpec) (cams order : List ICamera),
      order.Perm cams →
      ((probedState env w h cams order).frontCameras.Perm
          (attachFront env (mkConstraints w h) cams) ∧
       (probedState env w h cams order).rearCameras.Perm
          (attachRear env (mkConstraints w h) cams)) ∧
      (∀ d ∈ cams, ∀ c,
        (probeDevice env (mkConstraints w h) d).2 = some c →
        (containsBack d.label = false →
          { d with workingConstraints := some c }
            ∈ (probedState env w h cams order).frontCameras ∧
          { d with workingConstraints := some c }
            ∉ (probedState env w h cams order).rearCameras) ∧
        (containsBack d.label = true →
          { d with workingConstraints := some c }
            ∈ (probedState env w h cams order).rearCameras ∧
          { d with workingConstraints := some c }
            ∉ (probedState env w h cams order).frontCameras)) ∧
      (∀ d ∈ cams, (probeDevice env (mkConstraints w h) d).2 = none →
        ∀ x, (x ∈ (probedState env w h cams order).frontCameras ∨
              x ∈ (probedState env w h cams order).rearCameras) →
          x.deviceId ≠ d.deviceId) ∧
      (∀ s, getCamerasAndPermissions env w h = InitOutcome.loaded s →
        (∀ x ∈ s.frontCameras, containsBack x.label = false) ∧
        (∀ x ∈ s.rearCameras, containsBack x.label = true)) := by
  intro env w h cams order hperm
  have hchar : (probedState env w h cams order).frontCameras
        = attachFront env (mkConstraints w h) order ∧
      (probedState env w h cams order).rearCameras
        = attachRear env (mkConstraints w h) order := by
    unfold probedState
    rw [loadDevice_foldl]
    constructor
    · show ([] : List ICamera) ++ _ = _
      rw [List.nil_append]
    · show ([] : List ICamera) ++ _ = _
      rw [List.nil_append]
  refine ⟨⟨?_, ?_⟩, ?_, ?_, ?_⟩
  · rw [hchar.1]
    exact List.Perm.filterMap _ hperm
  · rw [hchar.2]
    exact List.Perm.filterMap _ hperm
  · intro d hd c hp
    have hdo : d ∈ order := hperm.mem_iff.mpr hd
    constructor
    · intro hb
      constructor
      · rw [hchar.1]
        exact mem_attachFront.mpr ⟨d, hdo, c, hp, hb, rfl⟩
      · rw [hchar.2]
        intro hmem
        obtain ⟨d2, _, c2, _, hb2, heq⟩ := mem_attachRear.mp hmem
        simp only [ICamera.mk.injEq] at heq
        rw [← heq.2.1] at hb2
        rw [hb] at hb2
        cases hb2
    · intro hb
      constructor
      · rw [hchar.2]
        exact mem_attachRear.mpr ⟨d, hdo, c, hp, hb, rfl⟩
      · rw [hchar.1]
        intro hmem
        obtain ⟨d2, _, c2, _, hb2, heq⟩ := mem_attachFront.mp hmem
        simp only [ICamera.mk.injEq] at heq
        rw [← heq.2.1] at hb2
        rw [hb] at hb2
        cases hb2
  · intro d hd hp x hx
    intro hid
    rcases hx with hx | hx
    · rw [hchar.1] at hx
      obtain ⟨d2, _, c2, hp2, _, heq⟩ := mem_attachFront.mp hx
      have hid2 : d2.deviceId = d.deviceId := by
        have hx2 : x.deviceId = d2.deviceId := by rw [heq]
        rw [← hx2, hid]
      rw [probeDevice_deviceId_eq hid2, hp] at hp2
      cases hp2
    · rw [hchar.2] at hx
      obtain ⟨d2, _, c2, hp2, _, heq⟩ := mem_attachRear.mp hx
      have hid2 : d2.deviceId = d.deviceId := by
        have hx2 : x.deviceId = d2.deviceId := by rw [heq]
        rw [← hx2, hid]
      rw [probeDevice_deviceId_eq hid2, hp] at hp2
      cases hp2
  · intro s hs
    exact getCamerasAndPermissions_heuristic hs

/-- Witness for C6 (amended) at the reversed settlement order
`camsThreeRev` of `envThreeDevices`'s devices: the probed front list is
a permutation of the discovery-order characterization, `cam1` (a passer
with a front label) is in the front list and not in the rear list, and
`camX` (probes all fail) is dropped from both. -/
theorem c6_lists_follow_label_heuristic_witness :
    (probedState envThreeDevices prefW prefH camsThree
        camsThreeRev).frontCameras.Perm
      (attachFront envThreeDevices (mkConstraints prefW prefH) camsThree) ∧
    ({ deviceId := "cam1", label := "Front Camera"
       workingConstraints := some (deviceConstraints
         (mkConstraints prefW prefH)
         { deviceId := "cam1", label := "Front Camera"
           workingConstraints := none }) : ICamera }
      ∈ (probedState envThreeDevices prefW prefH camsThree
          camsThreeRev).frontCameras ∧
    { deviceId := "cam1", label := "Front Camera"
      workingConstraints := some (deviceConstraints
        (mkConstraints prefW prefH)
        { deviceId := "cam1", label := "Front Camera"
          workingConstraints := none }) : ICamera }
      ∉ (probedState envThreeDevices prefW prefH camsThree
          camsThreeRev).rearCameras) ∧
    (∀ x, (x ∈ (probedState envThreeDevices prefW prefH camsThree
              camsThreeRev).frontCameras ∨
           x ∈ (probedState envThreeDevices prefW prefH camsThree
              camsThreeRev).rearCameras) →
      x.deviceId ≠ "camX") := by
  refine ⟨?_, ?_, ?_⟩
  · exact ((c6_lists_follow_label_heuristic envThreeDevices prefW prefH
      camsThree camsThreeRev (by decide)).1).1
  · exact ((c6_lists_follow_label_heuristic envThreeDevices prefW prefH
      camsThree camsThreeRev (by decide)).2.1
      { deviceId := "cam1", label := "Front Camera"
        workingConstraints := none }
      (by decide) (deviceConstraints (mkConstraints prefW prefH)
        { deviceId := "cam1", label := "Front Camera"
          workingConstraints := none })
      (by decide)).1 (by decide)
  · exact fun x hx => (c6_lists_follow_label_heuristic envThreeDevices
      prefW prefH camsThree camsThreeRev (by decide)).2.2.1
      { deviceId := "camX", label := "Other Camera"
        workingConstraints := none }
      (by decide) (by decide) x hx

/-- C7: per-device probing first attempts the exact deviceId plus the
caller's preferred width and height; exactly when that fails, a second
attempt drops width and height; a success of either attempt classifies
the device with the succeeding constraints attached as
`workingConstraints`. -/
theorem c7_probe_policy :
    ∀ (env : Env) (w h : DimSpec) (d : ICamera),
      (deviceConstraints (mkConstraints w h) d =
        { audio := false
          video := { width := some w, height := some h
                     deviceId := some d.deviceId, facingMode := none } }) ∧
      (dropWidthHeight (deviceConstraints (mkConstraints w h) d) =
        { audio := false
          video := { width := none, height := none
                     deviceId := some d.deviceId, facingMode := none } }) ∧
      (env.gum (some (deviceConstraints (mkConstraints w h) d)) = true →
        probeDevice env (mkConstraints w h) d =
          ([deviceConstraints (mkConstraints w h) d],
            some (deviceConstraints (mkConstraints w h) d))) ∧
      (env.gum (some (deviceConstraints (mkConstraints w h) d)) = false →
        env.gum (some (dropWidthHeight
          (deviceConstraints (mkConstraints w h) d))) = true →
        probeDevice env (mkConstraints w h) d =
          ([deviceConstraints (mkConstraints w h) d,
            dropWidthHeight (deviceConstraints (mkConstraints w h) d)],
            some (dropWidthHeight
              (deviceConstraints (mkConstraints w h) d)))) ∧
      (env.gum (some (deviceConstraints (mkConstraints w h) d)) = false →
        env.gum (some (dropWidthHeight
          (deviceConstraints (mkConstraints w h) d))) = false →
        probeDevice env (mkConstraints w h) d =
          ([deviceConstraints (mkConstraints w h) d,
            dropWidthHeight (deviceConstraints (mkConstraints w h) d)],
            none)) ∧
      (∀ (s : CameraState) (c : ICameraConstraints),
        (probeDevice env (mkConstraints w h) d).2 = some c →
        loadDevice env (mkConstraints w h) s d = classifyPush s d c ∧
        ({ d with workingConstraints := some c }
            ∈ (loadDevice env (mkConstraints w h) s d).frontCameras ∨
         { d with workingConstraints := some c }
            ∈ (loadDevice env (mkConstraints w h) s d).rearCameras)) := by
  intro env w h d
  refine ⟨rfl, rfl, ?_, ?_, ?_, ?_⟩
  · intro h1
    simp [probeDevice, h1]
  · intro h1 h2
    simp [probeDevice, h1, h2]
  · intro h1 h2
    simp [probeDevice, h1, h2]
  · intro s c hp
    have hld : loadDevice env (mkConstraints w h) s d = classifyPush s d c := by
      unfold loadDevice
      rw [hp]
    refine ⟨hld, ?_⟩
    rw [hld]
    unfold classifyPush
    cases hb : containsBack d.label
    · simp only [Bool.false_eq_true, if_false]
      left
      exact List.mem_append_right _ (List.mem_singleton.mpr rfl)
    · rw [if_pos rfl]
      right
      exact List.mem_append_right _ (List.mem_singleton.mpr rfl)

/-- Witness for C7 at `envRetry`: the preferred-resolution probe fails,
the retry without width/height succeeds, and the device is classified
with the retry constraints attached. -/
theorem c7_probe_policy_witness :
    probeDevice envRetry (mkConstraints prefW prefH) devX =
      ([deviceConstraints (mkConstraints prefW prefH) devX,
        dropWidthHeight (deviceConstraints (mkConstraints prefW prefH) devX)],
        some (dropWidthHeight
          (deviceConstraints (mkConstraints prefW prefH) devX))) :=
  (c7_probe_policy envRetry prefW prefH devX).2.2.2.1 (by decide) (by decide)

/-- C8: the device-resolution priority of an argumentless
`viewCameraStream`: the last-streamed device first; else the current
direction's cursor entry when that list is non-empty; else the other
direction's cursor entry when that list is non-empty; else the call
errors out, leaving the state unchanged and issuing no acquisition.  In
particular, with `currCamera` unset, direction `Rear`, `rearCameras`
empty and `frontCameras` non-empty, it resolves to a front device. -/
theorem c8_resolution_priority :
    ∀ (s : CameraState) (env : Env) (p : Bool),
      (∀ c, s.currCamera = some c →
        resolveDevice s none = Resolution.dev c) ∧
      (s.currCamera = none → s.currDirection = Direction.Front →
        s.frontCameras ≠ [] →
        resolveDevice s none =
          devOrUndef (jsIndex s.frontCameras s.currFrontIndex)) ∧
      (s.currCamera = none → s.currDirection = Direction.Rear →
        s.rearCameras ≠ [] →
        resolveDevice s none =
          devOrUndef (jsIndex s.rearCameras s.currRearIndex)) ∧
      (s.currCamera = none → s.currDirection = Direction.Front →
        s.frontCameras = [] → s.rearCameras ≠ [] →
        resolveDevice s none =
          devOrUndef (jsIndex s.rearCameras s.currRearIndex)) ∧
      (s.currCamera = none → s.currDirection = Direction.Rear →
        s.rearCameras = [] → s.frontCameras ≠ [] →
        resolveDevice s none =
          devOrUndef (jsIndex s.frontCameras s.currFrontIndex)) ∧
      (s.currCamera = none → s.frontCameras = [] → s.rearCameras = [] →
        viewCameraStream env p s none = (s, none)) ∧
      (∀ d, s.currCamera = none → s.currDirection = Direction.Rear →
        s.rearCameras = [] →
        jsIndex s.frontCameras s.currFrontIndex = some d →
        resolveDevice s none = Resolution.dev d ∧ d ∈ s.frontCameras) := by
  intro s env p
  refine ⟨?_, ?_, ?_, ?_, ?_, ?_, ?_⟩
  · intro c hc
    simp [resolveDevice, hc]
  · intro hc hdir hne
    have hlen : s.frontCameras.length > 0 := List.length_pos.mpr hne
    simp [resolveDevice, hc, hdir, hlen]
  · intro hc hdir hne
    have hlen : s.rearCameras.length > 0 := List.length_pos.mpr hne
    simp [resolveDevice, hc, hdir, hlen]
  · intro hc hdir hfe hne
    have hlen : s.rearCameras.length > 0 := List.length_pos.mpr hne
    simp [resolveDevice, hc, hdir, hfe, hlen]
  · intro hc hdir hre hne
    have hlen : s.frontCameras.length > 0 := List.length_pos.mpr hne
    simp [resolveDevice, hc, hdir, hre, hlen]
  · intro hc hfe hre
    have hres : resolveDevice s none = Resolution.noneAvail := by
      cases hdir : s.currDirection <;>
        simp [resolveDevice, hc, hdir, hfe, hre]
    unfold viewCameraStream
    rw [hres]
  · intro d hc hdir hre hidx
    have hne : s.frontCameras ≠ [] := by
      intro hnil
      rw [hnil] at hidx
      unfold jsIndex at hidx
      split at hidx <;> simp at hidx
    have hlen : s.frontCameras.length > 0 := List.length_pos.mpr hne
    constructor
    · simp [resolveDevice, hc, hdir, hre, hlen, hidx, devOrUndef]
    · exact jsIndex_mem hidx

/-- Witness for C8 at a reachable state with `currCamera` unset,
direction `Rear`, an empty rear list and a one-element front list. -/
theorem c8_resolution_priority_witness :
    resolveDevice sOneFrontNoFb none =
      Resolution.dev (sOneFrontNoFb.frontCameras.headD default) ∧
    sOneFrontNoFb.frontCameras.headD default ∈ sOneFrontNoFb.frontCameras :=
  (c8_resolution_priority sOneFrontNoFb envOneFrontNoFb true).2.2.2.2.2.2
    (sOneFrontNoFb.frontCameras.headD default)
    (by decide) (by decide) (by decide) (by decide)

/-- C9: `toggleCurrentCamera` is a no-op unless streaming and
`canToggleLenses()`; when it acts it advances the active direction's
cursor circularly — from `N-1` to `0`, from `i < N-1` to `i+1` — and
hands the device at the new cursor to `viewCameraStream`. -/
theorem c9_toggle_guard_and_wrap :
    ∀ (env : Env) (p : Bool) (s : CameraState),
      (¬ (s.isStreaming = true ∧ canToggleLenses s = true) →
        toggleCurrentCamera env p s = (s, none)) ∧
      (s.isStreaming = true → canToggleLenses s = true →
        ((s.currDirection = Direction.Front →
          s.currFrontIndex = (s.frontCameras.length : Int) - 1 →
          toggleCurrentCamera env p s =
            viewCameraStream env p { s with currFrontIndex := 0 }
              (jsIndex s.frontCameras 0)) ∧
        (s.currDirection = Direction.Front →
          s.currFrontIndex < (s.frontCameras.length : Int) - 1 →
          toggleCurrentCamera env p s =
            viewCameraStream env p
              { s with currFrontIndex := s.currFrontIndex + 1 }
              (jsIndex s.frontCameras (s.currFrontIndex + 1))) ∧
        (s.currDirection = Direction.Rear →
          s.currRearIndex = (s.rearCameras.length : Int) - 1 →
          toggleCurrentCamera env p s =
            viewCameraStream env p { s with currRearIndex := 0 }
              (jsIndex s.rearCameras 0)) ∧
        (s.currDirection = Direction.Rear →
          s.currRearIndex < (s.rearCameras.length : Int) - 1 →
          toggleCurrentCamera env p s =
            viewCameraStream env p
              { s with currRearIndex := s.currRearIndex + 1 }
              (jsIndex s.rearCameras (s.currRearIndex + 1))))) := by
  intro env p s
  constructor
  · intro hng
    have hguard : ¬ canToggleLenses s ∨ ¬ s.isStreaming := by
      cases hct : canToggleLenses s <;> cases his : s.isStreaming <;>
        simp_all
    unfold toggleCurrentCamera
    rw [if_pos hguard]
  · intro his hct
    have hguard : ¬ (¬ canToggleLenses s ∨ ¬ s.isStreaming) := by
      simp [hct, his]
    refine ⟨?_, ?_, ?_, ?_⟩
    · intro hdir hidx
      simp only [toggleCurrentCamera, hdir]
      rw [if_neg hguard]
      rw [if_pos (by omega)]
    · intro hdir hidx
      simp only [toggleCurrentCamera, hdir]
      rw [if_neg hguard]
      rw [if_neg (by omega)]
    · intro hdir hidx
      simp only [toggleCurrentCamera, hdir]
      rw [if_neg hguard]
      rw [if_pos (by omega)]
    · intro hdir hidx
      simp only [toggleCurrentCamera, hdir]
      rw [if_neg hguard]
      rw [if_neg (by omega)]

/-- Witness for C9: with two front cameras and the cursor on index 1
(the last entry), a toggle wraps the cursor to 0 and streams the device
there. -/
theorem c9_toggle_guard_and_wrap_witness :
    toggleCurrentCamera envTwoDevices true sToggleW =
      viewCameraStream envTwoDevices true
        { sToggleW with currFrontIndex := 0 }
        (jsIndex sToggleW.frontCameras 0) :=
  (((c9_toggle_guard_and_wrap envTwoDevices true sToggleW).2
    (by decide) (by decide)).1) (by decide) (by decide)

/-- C10: calling `viewCameraStream` with a falsy rendering target
performs no stream acquisition and leaves the whole manager state
unchanged, whatever device argument is supplied or resolved. -/
theorem c10_falsy_target_no_effect :
    ∀ (env : Env) (s : CameraState) (cameraDevice : Option ICamera),
      viewCameraStream env false s cameraDevice = (s, none) := by
  intro env s cameraDevice
  unfold viewCameraStream
  cases resolveDevice s cameraDevice <;> simp

end CameraWebApi
